import Mathlib

/-!
Verification of the obesity-level predictor application (`src/app.py`).

The file embeds the custom logic of the application in Lean:
the derived-feature calculator (`calculate_bmi`, `classify_bmi`),
the record assembler (the `input_data` dictionary and the column
reorder `input_data[expected_columns]`), the label translation and
recommendation lookup tables, the catch-all submission handler and
the artifact loader.  Numeric values are modelled with `ℚ`; fallible
operations (Python exceptions) are modelled with `Option`/`Except`.
-/

namespace ObesityApp

/-- `calculate_bmi(weight, height)` from `src/app.py` lines 56-58:
`weight / height ** 2`.  Python float division raises
`ZeroDivisionError` when the divisor is zero, so the embedding
returns `none` in that case and `some (weight / height ^ 2)`
otherwise. -/
def calculate_bmi (weight height : ℚ) : Option ℚ :=
  if height ^ 2 = 0 then none else some (weight / height ^ 2)

/-- `classify_bmi(bmi)` from `src/app.py` lines 60-73: a chain of
strict upper-bound tests with thresholds 18.5, 25, 30, 35, 40. -/
def classify_bmi (bmi : ℚ) : String :=
  if bmi < 18.5 then "Baixo peso"
  else if bmi < 25 then "Peso normal"
  else if bmi < 30 then "Sobrepeso Nível I"
  else if bmi < 35 then "Obesidade Tipo I"
  else if bmi < 40 then "Obesidade Tipo II"
  else "Obesidade Tipo III"

/-- The six BMI category names, in ascending bucket order. -/
def bmi_categories : List String :=
  ["Baixo peso", "Peso normal", "Sobrepeso Nível I",
   "Obesidade Tipo I", "Obesidade Tipo II", "Obesidade Tipo III"]

/-- A cell of the single-row pandas DataFrame: the numeric fields hold
floats (modelled as `ℚ`), the categorical fields hold strings. -/
inductive Value where
  | num (q : ℚ)
  | str (s : String)
deriving DecidableEq, Repr

/-- The sixteen raw form values read from the Streamlit controls
(`src/app.py` lines 80-104): `age` is an integer input and the four
sliders and `height`/`weight` are floats; all are modelled as `ℚ`.
The categorical selectboxes yield strings. -/
structure RawInputs where
  age : ℚ
  height : ℚ
  weight : ℚ
  gender : String
  family_history : String
  favc : String
  fvc : ℚ
  ncp : ℚ
  caec : String
  smoke : String
  ch2o : ℚ
  scc : String
  faf : ℚ
  tue : ℚ
  calcField : String
  mtrans : String
deriving DecidableEq, Repr

/-- The single-row DataFrame literal of `src/app.py` lines 116-133:
an association list in the order the dictionary is written, with the
numeric fields coerced to float (`Value.num`). -/
def input_data (r : RawInputs) : List (String × Value) :=
  [("Gender", Value.str r.gender),
   ("Age", Value.num r.age),
   ("Height", Value.num r.height),
   ("Weight", Value.num r.weight),
   ("family_history", Value.str r.family_history),
   ("FAVC", Value.str r.favc),
   ("FCVC", Value.num r.fvc),
   ("NCP", Value.num r.ncp),
   ("CAEC", Value.str r.caec),
   ("SMOKE", Value.str r.smoke),
   ("CH2O", Value.num r.ch2o),
   ("SCC", Value.str r.scc),
   ("FAF", Value.num r.faf),
   ("TUE", Value.num r.tue),
   ("CALC", Value.str r.calcField),
   ("MTRANS", Value.str r.mtrans)]

/-- The sixteen field names of the assembled record, in assembly order. -/
def input_names : List String :=
  ["Gender", "Age", "Height", "Weight", "family_history", "FAVC",
   "FCVC", "NCP", "CAEC", "SMOKE", "CH2O", "SCC", "FAF", "TUE",
   "CALC", "MTRANS"]

/-- The column selection `input_data[expected_columns]` of
`src/app.py` line 136: pandas builds a new frame holding the requested
columns in the requested order, looking each name up in the source
frame, and raises a `KeyError` (here `none`) as soon as a requested
column is missing. -/
def reorder (cols : List String) (rec : List (String × Value)) :
    Option (List (String × Value)) :=
  match cols with
  | [] => some []
  | c :: cs =>
    match rec.lookup c, reorder cs rec with
    | some v, some rest => some ((c, v) :: rest)
    | _, _ => none

/-- Modelled from the spec: `expected_columns.pkl` is not under `src/`;
the spec fixes only that it is "an ordered list of 16 field names"
whose name set equals the Patient Record's name set (no missing, no
extra).  We fix the assembly order as the representative order. -/
def expected_columns : List String := input_names

/-- Modelled from the spec: `categories.pkl` is not under `src/`; the
spec fixes only that each of the two categorical fields `CAEC` and
`CALC` has "a fixed, externally-supplied set of legal string values".
We fix the standard vocabulary of the obesity dataset as the
representative value set for `CAEC`. -/
def caec_vocab : List String := ["no", "Sometimes", "Frequently", "Always"]

/-- The label map of `src/app.py` lines 46-53 (`obesity_labels`). -/
def obesity_labels : List (Nat × String) :=
  [(0, "Insufficient_Weight"),
   (1, "Normal_Weight"),
   (2, "Overweight_Level_I"),
   (3, "Obesity_Type_I"),
   (4, "Obesity_Type_II"),
   (5, "Obesity_Type_III")]

/-- The six English model labels, in index order. -/
def english_labels : List String := obesity_labels.map Prod.snd

/-- The translation dictionary `label_translation` of `src/app.py`
lines 146-153. -/
def label_translation : List (String × String) :=
  [("Insufficient_Weight", "Baixo Peso"),
   ("Normal_Weight", "Peso Normal"),
   ("Overweight_Level_I", "Sobrepeso Nível I"),
   ("Obesity_Type_I", "Obesidade Tipo I"),
   ("Obesity_Type_II", "Obesidade Tipo II"),
   ("Obesity_Type_III", "Obesidade Tipo III")]

/-- `label_translation.get(prediction_label, prediction_label)` of
`src/app.py` line 155: dictionary lookup with the input itself as the
default. -/
def translate (l : String) : String := (label_translation.lookup l).getD l

/-- Recommendation text for "Baixo Peso" (`src/app.py` lines 191-196). -/
def rec_baixo_peso : String :=
  "- Aumentar consumo calórico de forma saudável\n- Incluir proteínas magras e carboidratos complexos\n- Consultar nutricionista para plano alimentar\n- Exercícios de força para ganho muscular"

/-- Recommendation text for "Peso Normal" (`src/app.py` lines 197-202). -/
def rec_peso_normal : String :=
  "- Manter hábitos alimentares saudáveis\n- Continuar com atividade física regular\n- Monitorar peso mensalmente\n- Manter hidratação adequada"

/-- Recommendation text for "Sobrepeso Nível I" (`src/app.py` lines 203-208). -/
def rec_sobrepeso : String :=
  "- Reduzir calorias em 200-300 por dia\n- Aumentar atividade física para 150 min/semana\n- Reduzir alimentos processados e açúcares\n- Acompanhar ingestão alimentar"

/-- Recommendation text for "Obesidade Tipo I" (`src/app.py` lines 209-214). -/
def rec_obesidade1 : String :=
  "- Consultar médico e nutricionista\n- Redução calórica supervisionada\n- Exercícios aeróbicos 30 min/dia, 5x/semana\n- Monitorar progresso semanalmente"

/-- Recommendation text for "Obesidade Tipo II" (`src/app.py` lines 215-220). -/
def rec_obesidade2 : String :=
  "- Acompanhamento médico obrigatório\n- Plano alimentar personalizado\n- Atividade física supervisionada\n- Considerar acompanhamento psicológico"

/-- Recommendation text for "Obesidade Tipo III" (`src/app.py` lines 221-226). -/
def rec_obesidade3 : String :=
  "- Intervenção médica imediata\n- Tratamento multidisciplinar\n- Possível indicação cirúrgica\n- Acompanhamento intensivo"

/-- The `recommendations` dictionary of `src/app.py` lines 190-227,
keyed by the translated (Portuguese) labels. -/
def recommendations : List (String × String) :=
  [("Baixo Peso", rec_baixo_peso),
   ("Peso Normal", rec_peso_normal),
   ("Sobrepeso Nível I", rec_sobrepeso),
   ("Obesidade Tipo I", rec_obesidade1),
   ("Obesidade Tipo II", rec_obesidade2),
   ("Obesidade Tipo III", rec_obesidade3)]

/-- The generic fallback of `recommendations.get(translated_label, ...)`
(`src/app.py` line 229). -/
def fallback_recommendation : String := "Consulte um profissional de saúde."

/-- `recommendations.get(translated_label, fallback)` of `src/app.py`
line 229. -/
def recommend (l : String) : String :=
  (recommendations.lookup l).getD fallback_recommendation

/-- What the `except` branch of `src/app.py` line 240 prefixes to the
exception text. -/
def generic_error_head : String := "❌ Erro ao processar predição: "

/-- The retry hint of `src/app.py` line 241. -/
def retry_hint : String := "Verifique se todos os campos foram preenchidos corretamente."

/-- The observable outcome of one form submission: either the rendered
results (BMI metric, BMI category, translated predicted label,
recommendation text, downloadable record), or the single generic error
display of the `except` branch. -/
inductive SubmissionOutcome where
  | success (bmi : ℚ) (bmiCategory translatedLabel recommendation : String)
      (report : List (String × Value))
  | failure (message hint : String)
deriving DecidableEq, Repr

/-- The body of the `try` block of `src/app.py` lines 110-237: compute
the BMI feature, classify it, assemble and reorder the record, invoke
the model (an external collaborator, supplied here as an
`Except String String` holding the decoded label or the exception it
raised), then translate the label and look up its recommendation.  Any
stage's exception aborts the rest of the block. -/
def run_pipeline (r : RawInputs) (cols : List String)
    (modelLabel : Except String String) :
    Except String (ℚ × String × String × String × List (String × Value)) :=
  match calculate_bmi r.weight r.height with
  | none => Except.error "float division by zero"
  | some bmi =>
    match reorder cols (input_data r) with
    | none => Except.error "KeyError"
    | some ordered =>
      match modelLabel with
      | Except.error e => Except.error e
      | Except.ok lbl =>
        Except.ok (bmi, classify_bmi bmi, translate lbl,
          recommend (translate lbl), ordered)

/-- The `try`/`except` of `src/app.py` lines 110-241: a successful run
renders the results; any exception is caught by the single broad
`except Exception` branch and rendered as one generic error message
plus the fixed retry hint. -/
def handle_submission (r : RawInputs) (cols : List String)
    (modelLabel : Except String String) : SubmissionOutcome :=
  match run_pipeline r cols modelLabel with
  | Except.ok (bmi, bcat, tlbl, rc, report) =>
      SubmissionOutcome.success bmi bcat tlbl rc report
  | Except.error e =>
      SubmissionOutcome.failure (generic_error_head ++ e) retry_hint

/-- `load_artifacts` of `src/app.py` lines 23-34: the four `joblib.load`
calls run in order inside one `try`; the first exception aborts the
block and the function returns the all-`None` tuple after showing the
load error.  Each argument stands for one load attempt. -/
def load_artifacts {α β γ δ : Type} (m : Except String α) (l : Except String β)
    (e : Except String γ) (c : Except String δ) :
    Except String (α × β × γ × δ) :=
  match m with
  | Except.error s => Except.error s
  | Except.ok a =>
    match l with
    | Except.error s => Except.error s
    | Except.ok b =>
      match e with
      | Except.error s => Except.error s
      | Except.ok g =>
        match c with
        | Except.error s => Except.error s
        | Except.ok d => Except.ok (a, b, g, d)

/-- The overall state of one app session after startup. -/
inductive AppRun (α : Type) where
  | halted (errorMessage : String)
  | active (artifacts : α)

/-- `src/app.py` lines 36-40: load the artifacts; on failure the error
is shown (`st.error` inside `load_artifacts`) and `st.stop()` halts the
script, so no form is rendered and no prediction can run.  On success
the session proceeds with the loaded artifacts. -/
def app_start {α β γ δ : Type} (m : Except String α) (l : Except String β)
    (e : Except String γ) (c : Except String δ) : AppRun (α × β × γ × δ) :=
  match load_artifacts m l e c with
  | Except.error s => AppRun.halted ("Erro ao carregar arquivos: " ++ s)
  | Except.ok arts => AppRun.active arts

/-- Modelled from the spec: `modelo_obesidade.pkl` is an opaque
serialized model that is not under `src/`; the spec's contract for its
classify-with-probabilities operation is "a probability value per
class, probabilities summing to 1.0 (within floating-point tolerance)
and each in [0,1]" over the six classes.  The idealized rational model
carries the exact sum. -/
structure PredictProbaOutput where
  probs : List ℚ
  length_eq : probs.length = 6
  nonneg : ∀ p ∈ probs, 0 ≤ p
  sum_eq : probs.sum = 1

/-- The uniform distribution over the six classes, witnessing that the
probability-vector contract is satisfiable. -/
def uniform_proba : PredictProbaOutput where
  probs := List.replicate 6 (1 / 6)
  length_eq := by simp
  nonneg := by
    intro p hp
    rw [List.eq_of_mem_replicate hp]
    norm_num
  sum_eq := by
    rw [List.sum_replicate]
    norm_num

/-- The form's default values (`src/app.py` lines 80-104). -/
def sample_raw : RawInputs :=
  ⟨30, 1.70, 70.0, "Male", "yes", "yes", 2.0, 3.0, "Sometimes", "no",
   1.5, "no", 1.0, 1.0, "no", "Automobile"⟩

/-- The form's default values except that the `CAEC` field holds a
string outside the categorical vocabulary. -/
def out_of_vocab_raw : RawInputs :=
  ⟨30, 1.70, 70.0, "Male", "yes", "yes", 2.0, 3.0,
   "valor fora do vocabulario", "no", 1.5, "no", 1.0, 1.0, "no",
   "Automobile"⟩

end ObesityApp

open ObesityApp

lemma classify_mem (bmi : ℚ) : classify_bmi bmi ∈ bmi_categories := by
  unfold classify_bmi bmi_categories
  split_ifs <;> simp

lemma classify_iff_baixo (bmi : ℚ) :
    classify_bmi bmi = "Baixo peso" ↔ bmi < 18.5 := by
  unfold classify_bmi
  split_ifs with h1 h2 h3 h4 h5 <;> simp_all

lemma classify_iff_normal (bmi : ℚ) :
    classify_bmi bmi = "Peso normal" ↔ 18.5 ≤ bmi ∧ bmi < 25 := by
  unfold classify_bmi
  split_ifs with h1 h2 h3 h4 h5 <;> simp_all <;> intros <;> linarith

lemma classify_iff_sobrepeso (bmi : ℚ) :
    classify_bmi bmi = "Sobrepeso Nível I" ↔ 25 ≤ bmi ∧ bmi < 30 := by
  unfold classify_bmi
  split_ifs with h1 h2 h3 h4 h5 <;> simp_all <;> intros <;> linarith

lemma classify_iff_ob1 (bmi : ℚ) :
    classify_bmi bmi = "Obesidade Tipo I" ↔ 30 ≤ bmi ∧ bmi < 35 := by
  unfold classify_bmi
  split_ifs with h1 h2 h3 h4 h5 <;> simp_all <;> intros <;> linarith

lemma classify_iff_ob2 (bmi : ℚ) :
    classify_bmi bmi = "Obesidade Tipo II" ↔ 35 ≤ bmi ∧ bmi < 40 := by
  unfold classify_bmi
  split_ifs with h1 h2 h3 h4 h5 <;> simp_all <;> intros <;> linarith

lemma classify_iff_ob3 (bmi : ℚ) :
    classify_bmi bmi = "Obesidade Tipo III" ↔ 40 ≤ bmi := by
  unfold classify_bmi
  split_ifs with h1 h2 h3 h4 h5 <;> simp_all <;> intros <;> linarith

/-- C1: `classify_bmi` returns exactly one of the six fixed categories for
every rational BMI value; each category is returned exactly on its half-open
interval (inclusive lower bound, strict upper bound, thresholds 18.5, 25, 30,
35, 40), so the six intervals partition the line with no gap or overlap; and
the concrete boundary cases hold: 18.5 and 24.999 are both "Peso normal",
39.999 is "Obesidade Tipo II", 40.0 is "Obesidade Tipo III". -/
theorem classify_bmi_partition (bmi : ℚ) :
    classify_bmi bmi ∈ bmi_categories ∧
    (classify_bmi bmi = "Baixo peso" ↔ bmi < 18.5) ∧
    (classify_bmi bmi = "Peso normal" ↔ 18.5 ≤ bmi ∧ bmi < 25) ∧
    (classify_bmi bmi = "Sobrepeso Nível I" ↔ 25 ≤ bmi ∧ bmi < 30) ∧
    (classify_bmi bmi = "Obesidade Tipo I" ↔ 30 ≤ bmi ∧ bmi < 35) ∧
    (classify_bmi bmi = "Obesidade Tipo II" ↔ 35 ≤ bmi ∧ bmi < 40) ∧
    (classify_bmi bmi = "Obesidade Tipo III" ↔ 40 ≤ bmi) ∧
    classify_bmi (18.5 : ℚ) = "Peso normal" ∧
    classify_bmi (24.999 : ℚ) = "Peso normal" ∧
    classify_bmi (39.999 : ℚ) = "Obesidade Tipo II" ∧
    classify_bmi (40 : ℚ) = "Obesidade Tipo III" :=
  ⟨classify_mem bmi, classify_iff_baixo bmi, classify_iff_normal bmi,
   classify_iff_sobrepeso bmi, classify_iff_ob1 bmi, classify_iff_ob2 bmi,
   classify_iff_ob3 bmi,
   by unfold classify_bmi; norm_num,
   by unfold classify_bmi; norm_num,
   by unfold classify_bmi; norm_num,
   by unfold classify_bmi; norm_num⟩

/-- C2: for positive weight and height, `calculate_bmi` returns exactly
`weight / height ^ 2`; at height 0 the division raises (the embedding
returns `none`), so positive height is a caller-side precondition. -/
theorem calculate_bmi_spec (w h : ℚ) (hw : 0 < w) (hh : 0 < h) :
    calculate_bmi w h = some (w / h ^ 2) ∧ calculate_bmi w 0 = none := by
  constructor
  · unfold calculate_bmi
    rw [if_neg]
    positivity
  · unfold calculate_bmi
    norm_num

/-- Witness for C2 at weight 70, height 2. -/
theorem calculate_bmi_spec_witness :
    calculate_bmi 70 2 = some (70 / 2 ^ 2) ∧ calculate_bmi 70 0 = none :=
  calculate_bmi_spec 70 2 (by norm_num) (by norm_num)

/-- C3: the spec's two end-to-end derived-feature scenarios.  For
height 1.70 and weight 70.0 the BMI is about 24.22 and classifies as
"Peso normal"; for height 1.60 and weight 100.0 the BMI is 39.0625
(about 39.06) and classifies as "Obesidade Tipo II". -/
theorem bmi_scenarios :
    (∃ b : ℚ, calculate_bmi 70 1.70 = some b ∧
      |b - 24.22| < 0.01 ∧ classify_bmi b = "Peso normal") ∧
    (∃ b : ℚ, calculate_bmi 100 1.60 = some b ∧
      |b - 39.06| < 0.01 ∧ classify_bmi b = "Obesidade Tipo II") := by
  constructor
  · refine ⟨70 / (1.70 : ℚ) ^ 2, by norm_num [calculate_bmi], ?_, ?_⟩
    · rw [abs_sub_lt_iff]
      norm_num
    · unfold classify_bmi
      norm_num
  · refine ⟨100 / (1.60 : ℚ) ^ 2, by norm_num [calculate_bmi], ?_, ?_⟩
    · rw [abs_sub_lt_iff]
      norm_num
    · unfold classify_bmi
      norm_num

lemma lookup_eq_none_iff {β : Type} (entries : List (String × β)) (c : String) :
    entries.lookup c = none ↔ c ∉ entries.map Prod.fst := by
  induction entries with
  | nil => simp
  | cons hd tl ih =>
    obtain ⟨k, v⟩ := hd
    simp only [List.lookup, List.map_cons, List.mem_cons, not_or]
    by_cases h : c = k
    · subst h
      simp
    · rw [beq_false_of_ne h]
      simp [ih, h]

lemma reorder_eq_none_iff (cols : List String) (entries : List (String × Value)) :
    reorder cols entries = none ↔ ∃ c ∈ cols, entries.lookup c = none := by
  induction cols with
  | nil => simp [reorder]
  | cons c cs ih =>
    constructor
    · intro h
      by_cases hl : entries.lookup c = none
      · exact ⟨c, List.mem_cons_self c cs, hl⟩
      · obtain ⟨v, hv⟩ := Option.ne_none_iff_exists'.1 hl
        have hcs : reorder cs entries = none := by
          by_contra hne
          obtain ⟨rest, hrest⟩ := Option.ne_none_iff_exists'.1 hne
          simp [reorder, hv, hrest] at h
        obtain ⟨d, hd, hdn⟩ := ih.1 hcs
        exact ⟨d, List.mem_cons_of_mem c hd, hdn⟩
    · rintro ⟨d, hd, hdn⟩
      rcases List.mem_cons.1 hd with rfl | hd'
      · simp [reorder, hdn]
      · have hcs : reorder cs entries = none := ih.2 ⟨d, hd', hdn⟩
        cases hv : entries.lookup c with
        | none => simp [reorder, hv]
        | some v => simp [reorder, hv, hcs]

lemma reorder_map_fst (cols : List String) (entries : List (String × Value))
    (out : List (String × Value)) (h : reorder cols entries = some out) :
    out.map Prod.fst = cols := by
  induction cols generalizing out with
  | nil =>
    simp [reorder] at h
    simp [← h]
  | cons c cs ih =>
    simp only [reorder] at h
    cases hl : entries.lookup c with
    | none => rw [hl] at h; exact absurd h (by simp)
    | some v =>
      rw [hl] at h
      cases hr : reorder cs entries with
      | none => rw [hr] at h; exact absurd h (by simp)
      | some rest =>
        rw [hr] at h
        simp only [Option.some.injEq] at h
        subst h
        simp [ih rest hr]

lemma reorder_lookup (cols : List String) (entries : List (String × Value))
    (out : List (String × Value)) (hnd : cols.Nodup)
    (h : reorder cols entries = some out) :
    ∀ c ∈ cols, out.lookup c = entries.lookup c := by
  induction cols generalizing out with
  | nil => simp
  | cons c cs ih =>
    simp only [reorder] at h
    cases hl : entries.lookup c with
    | none => rw [hl] at h; exact absurd h (by simp)
    | some v =>
      rw [hl] at h
      cases hr : reorder cs entries with
      | none => rw [hr] at h; exact absurd h (by simp)
      | some rest =>
        rw [hr] at h
        simp only [Option.some.injEq] at h
        subst h
        intro d hd
        rcases List.mem_cons.1 hd with rfl | hdc
        · simp [List.lookup, hl]
        · have hne : d ≠ c := by
            rintro rfl
            exact (List.nodup_cons.1 hnd).1 hdc
          have hrec := ih rest (List.nodup_cons.1 hnd).2 hr d hdc
          simp only [List.lookup, beq_false_of_ne hne]
          exact hrec

lemma input_names_nodup : input_names.Nodup := by decide

lemma map_fst_input_data (r : RawInputs) :
    (input_data r).map Prod.fst = input_names := rfl

/-- C4: assembling the sixteen raw field values and reordering the record by
any Expected Column Order (any sequence with the same name set as the
record, per the spec invariant) succeeds and yields a record whose column
order is exactly the expected order, whose field-name set equals the
expected name set with nothing missing and nothing extra, and in which every
field reads back with the value (and hence the `Value` type) it was
assembled with. -/
theorem assemble_roundtrip (r : RawInputs) (cols : List String)
    (hperm : cols.Perm input_names) :
    ∃ out, reorder cols (input_data r) = some out ∧
      out.map Prod.fst = cols ∧
      (∀ c, c ∈ out.map Prod.fst ↔ c ∈ input_names) ∧
      (∀ c ∈ input_names, out.lookup c = (input_data r).lookup c) := by
  have hnotnone : ¬reorder cols (input_data r) = none := by
    rw [reorder_eq_none_iff]
    rintro ⟨c, hc, hcn⟩
    rw [lookup_eq_none_iff, map_fst_input_data] at hcn
    exact hcn (hperm.mem_iff.1 hc)
  obtain ⟨out, hout⟩ := Option.ne_none_iff_exists'.1 hnotnone
  have hnd : cols.Nodup := hperm.nodup_iff.2 input_names_nodup
  refine ⟨out, hout, reorder_map_fst _ _ _ hout, ?_, ?_⟩
  · intro c
    rw [reorder_map_fst _ _ _ hout]
    exact hperm.mem_iff
  · intro c hc
    exact reorder_lookup cols _ out hnd hout c (hperm.mem_iff.2 hc)

/-- Witness for C4: the default form values with the expected order taken as
a rotation of the assembly order. -/
theorem assemble_roundtrip_witness :
    ∃ out, reorder (input_names.rotate 5) (input_data sample_raw) = some out ∧
      out.map Prod.fst = input_names.rotate 5 ∧
      (∀ c, c ∈ out.map Prod.fst ↔ c ∈ input_names) ∧
      (∀ c ∈ input_names, out.lookup c = (input_data sample_raw).lookup c) :=
  assemble_roundtrip sample_raw (input_names.rotate 5) (List.rotate_perm _ _)

/-- C5 (amended): record assembly fails exactly when some expected column is
missing from the assembled record; the values of the categorical fields are
never inspected, so an out-of-vocabulary value does not make assembly fail. -/
theorem assembly_failure_iff_missing_column (r : RawInputs) (cols : List String) :
    reorder cols (input_data r) = none ↔ ∃ c ∈ cols, c ∉ input_names := by
  rw [reorder_eq_none_iff]
  constructor
  · rintro ⟨c, hc, hcn⟩
    rw [lookup_eq_none_iff, map_fst_input_data] at hcn
    exact ⟨c, hc, hcn⟩
  · rintro ⟨c, hc, hcn⟩
    refine ⟨c, hc, ?_⟩
    rw [lookup_eq_none_iff, map_fst_input_data]
    exact hcn

/-- Counterexample for C5 as stated: a record whose `CAEC` field holds a
string outside the categorical vocabulary is nevertheless assembled and
reordered successfully (assembly does not fail), so the record does reach
the model invocation. -/
theorem assembly_ignores_vocabulary :
    (reorder expected_columns (input_data out_of_vocab_raw)).isSome = true ∧
    out_of_vocab_raw.caec ∉ caec_vocab ∧
    (∃ out, run_pipeline out_of_vocab_raw expected_columns
      (Except.ok "Normal_Weight") = Except.ok out) := by
  refine ⟨by decide, by decide, ?_⟩
  obtain ⟨ord, hord⟩ := Option.isSome_iff_exists.1
    (by decide : (reorder expected_columns (input_data out_of_vocab_raw)).isSome = true)
  have hbmi : calculate_bmi out_of_vocab_raw.weight out_of_vocab_raw.height
      = some (out_of_vocab_raw.weight / out_of_vocab_raw.height ^ 2) := by
    unfold calculate_bmi
    rw [if_neg]
    norm_num [out_of_vocab_raw]
  refine ⟨(out_of_vocab_raw.weight / out_of_vocab_raw.height ^ 2,
    classify_bmi (out_of_vocab_raw.weight / out_of_vocab_raw.height ^ 2),
    ObesityApp.translate "Normal_Weight", recommend (ObesityApp.translate "Normal_Weight"), ord), ?_⟩
  simp only [run_pipeline, hbmi, hord]

set_option maxRecDepth 8192 in
/-- C6: `translate` and `recommend` are total with fixed values on the known
labels: each of the six English model labels translates to its fixed
localized name whose recommendation lookup yields that label's fixed text;
any label outside the translation table passes through `translate`
unchanged, and any label outside the recommendation table gets the generic
"consult a professional" fallback from `recommend`. -/
theorem translate_recommend_total :
    (ObesityApp.translate "Insufficient_Weight" = "Baixo Peso" ∧
      recommend (ObesityApp.translate "Insufficient_Weight") = rec_baixo_peso) ∧
    (ObesityApp.translate "Normal_Weight" = "Peso Normal" ∧
      recommend (ObesityApp.translate "Normal_Weight") = rec_peso_normal) ∧
    (ObesityApp.translate "Overweight_Level_I" = "Sobrepeso Nível I" ∧
      recommend (ObesityApp.translate "Overweight_Level_I") = rec_sobrepeso) ∧
    (ObesityApp.translate "Obesity_Type_I" = "Obesidade Tipo I" ∧
      recommend (ObesityApp.translate "Obesity_Type_I") = rec_obesidade1) ∧
    (ObesityApp.translate "Obesity_Type_II" = "Obesidade Tipo II" ∧
      recommend (ObesityApp.translate "Obesity_Type_II") = rec_obesidade2) ∧
    (ObesityApp.translate "Obesity_Type_III" = "Obesidade Tipo III" ∧
      recommend (ObesityApp.translate "Obesity_Type_III") = rec_obesidade3) ∧
    (∀ s, s ∉ label_translation.map Prod.fst → ObesityApp.translate s = s) ∧
    (∀ s, s ∉ recommendations.map Prod.fst →
      recommend s = fallback_recommendation) := by
  refine ⟨by decide, by decide, by decide, by decide, by decide, by decide,
    ?_, ?_⟩
  · intro s hs
    unfold ObesityApp.translate
    rw [(lookup_eq_none_iff _ _).2 hs]
    rfl
  · intro s hs
    unfold recommend
    rw [(lookup_eq_none_iff _ _).2 hs]
    rfl

/-- Witness for C6 at the unknown label "Gordura_Alta". -/
theorem translate_recommend_total_witness :
    ObesityApp.translate "Gordura_Alta" = "Gordura_Alta" ∧
    recommend "Gordura_Alta" = fallback_recommendation :=
  ⟨translate_recommend_total.2.2.2.2.2.2.1 "Gordura_Alta" (by decide),
   translate_recommend_total.2.2.2.2.2.2.2 "Gordura_Alta" (by decide)⟩

/-- C7: whatever exception any stage of the prediction cycle raises (feature
computation, record assembly, or the model invocation), the submission
handler catches it in its single broad branch and produces the one generic
processing-error display built from the fixed prefix and the fixed re-check
hint; no retry happens and no further classification of the cause exists,
and the handler is a pure function of the submission, so the failed
submission mutates no session state. -/
theorem prediction_error_catch_all (r : RawInputs) (cols : List String)
    (modelLabel : Except String String) (e : String)
    (h : run_pipeline r cols modelLabel = Except.error e) :
    handle_submission r cols modelLabel =
      SubmissionOutcome.failure (generic_error_head ++ e) retry_hint := by
  unfold handle_submission
  rw [h]

/-- Witness for C7: the default form values with a failing model call. -/
theorem prediction_error_catch_all_witness :
    handle_submission sample_raw expected_columns
        (Except.error "falha do modelo") =
      SubmissionOutcome.failure (generic_error_head ++ "falha do modelo")
        retry_hint :=
  prediction_error_catch_all sample_raw expected_columns _ _ (by
    obtain ⟨ord, hord⟩ := Option.isSome_iff_exists.1
      (by decide :
        (reorder expected_columns (input_data sample_raw)).isSome = true)
    have hbmi : calculate_bmi sample_raw.weight sample_raw.height
        = some (sample_raw.weight / sample_raw.height ^ 2) := by
      unfold calculate_bmi
      rw [if_neg]
      norm_num [sample_raw]
    simp only [run_pipeline, hbmi, hord])

/-- C8: if any of the four artifact loads fails, the session starts halted:
the user sees the load error and the app stops, so no artifacts are ever
active and no form processing or prediction can happen in that session. -/
theorem artifact_load_failure_halts {α β γ δ : Type}
    (m : Except String α) (l : Except String β)
    (e : Except String γ) (c : Except String δ)
    (h : (∃ s, m = Except.error s) ∨ (∃ s, l = Except.error s) ∨
         (∃ s, e = Except.error s) ∨ (∃ s, c = Except.error s)) :
    (∃ s, app_start m l e c =
      AppRun.halted ("Erro ao carregar arquivos: " ++ s)) ∧
    ∀ a, app_start m l e c ≠ AppRun.active a := by
  cases m <;> cases l <;> cases e <;> cases c <;>
    simp_all [app_start, load_artifacts]

/-- Witness for C8: the model file fails to load, the other three succeed. -/
theorem artifact_load_failure_halts_witness :
    (∃ s, app_start (Except.error "arquivo ausente" : Except String ℕ) (Except.ok (0 : ℕ))
        (Except.ok (0 : ℕ)) (Except.ok (0 : ℕ)) =
      AppRun.halted ("Erro ao carregar arquivos: " ++ s)) ∧
    ∀ a, app_start (Except.error "arquivo ausente" : Except String ℕ) (Except.ok (0 : ℕ))
        (Except.ok (0 : ℕ)) (Except.ok (0 : ℕ)) ≠ AppRun.active a :=
  artifact_load_failure_halts _ _ _ _ (Or.inl ⟨"arquivo ausente", rfl⟩)

/-- C9: every probability vector satisfying the Prediction Invoker's
contract has length exactly 6, every entry in [0, 1], and sum within 1/1000
of 1. -/
theorem predict_proba_contract (o : PredictProbaOutput) :
    o.probs.length = 6 ∧ (∀ p ∈ o.probs, 0 ≤ p ∧ p ≤ 1) ∧
    |o.probs.sum - 1| ≤ 1 / 1000 := by
  refine ⟨o.length_eq, ?_, ?_⟩
  · intro p hp
    refine ⟨o.nonneg p hp, ?_⟩
    have h := List.single_le_sum o.nonneg p hp
    rw [o.sum_eq] at h
    exact h
  · rw [o.sum_eq]
    norm_num

/-- C10: each of the six English model labels translates to a key of the
recommendation table, so the recommendation looked up for a translated known
label is never the generic fallback — that branch is unreachable for known
labels. -/
theorem translated_labels_are_recommendation_keys (l : String)
    (hl : l ∈ english_labels) :
    ObesityApp.translate l ∈ recommendations.map Prod.fst ∧
    recommend (ObesityApp.translate l) ≠ fallback_recommendation := by
  simp only [english_labels, obesity_labels, List.map_cons, List.map_nil,
    List.mem_cons, List.not_mem_nil, or_false] at hl
  rcases hl with rfl | rfl | rfl | rfl | rfl | rfl <;> exact ⟨by decide, by decide⟩

/-- Witness for C10 at the label "Obesity_Type_III". -/
theorem translated_labels_are_recommendation_keys_witness :
    ObesityApp.translate "Obesity_Type_III" ∈ recommendations.map Prod.fst ∧
    recommend (ObesityApp.translate "Obesity_Type_III") ≠ fallback_recommendation :=
  translated_labels_are_recommendation_keys "Obesity_Type_III" (by decide)
